import Mathlib

/-
Shallow embedding of `src/discord/state.py` (class `ConnectionState`), the
client-side state-synchronization engine of this repository.

Modelling conventions, fixed once here:
* Ids ("snowflakes") arrive in decoded event records.  Per the spec (§1) the
  engine receives already-parsed structured records, so ids are modelled as
  `Nat` and Python's `int(...)` on an id is the identity.
* Python dicts are modelled as association lists in insertion order
  (`dictInsert` = `d[k] = v`, `dictPop` = `d.pop(k, None)`,
  `dictGet` = `d.get(k)`).
* `collections.deque(maxlen=m)` is modelled as a `List` whose append drops
  from the front once `m` elements are held (`dequeAppend`), and whose
  construction from an iterable keeps the rightmost `m` elements
  (`dequeTrunc`).
* Object identity (Python references) is observable through a `tag` field
  allocated from a `fresh` counter in the state: a constructor stamps the
  current counter and bumps it, while in-place field merges preserve the tag.
* The entity classes (`Guild`, `User`, `Reaction`, channels) live outside
  `src/`; only the fields the cache logic reads are modelled, following the
  spec's data model (§3).  Such definitions carry a
  `Modelled from the spec:` note in their doc comment.
* Handlers return the mutated state plus the list of externally visible
  effects (`dispatch` calls, future resolutions, `chunker`/`syncer` calls);
  payload objects handed to `dispatch` are out of scope (spec §6) and are
  not modelled.  Handlers that can raise return `Except PyError`.
-/

namespace DiscordState

abbrev Snowflake := Nat

/-- Python-level exceptions that the embedded handlers can raise. -/
inductive PyError where
  | attributeError
deriving DecidableEq, Repr

/-- `class ListenerType(enum.Enum): chunk = 0` -/
inductive ListenerType where
  | chunk
deriving DecidableEq, Repr

/-- `Listener = namedtuple('Listener', ('type', 'future', 'predicate'))`.
The only registration site is `receive_chunk`, whose predicate is
`lambda s: s.id == guild_id`; the predicate is therefore carried as the
guild id it matches (`predGuildId`).  `cancelled` models the externally
observable `future.cancelled()` flag of the attached future, and `future`
is the identity of that future. -/
structure Listener where
  type : ListenerType
  future : Nat
  cancelled : Bool
  predGuildId : Snowflake
deriving DecidableEq, Repr

/-- Externally visible effects of a handler: `dispatch` invocations,
`future.set_result` calls performed by `process_listeners`, and calls to
the injected `chunker`/`syncer` collaborators (identified by the guild ids
they are passed). -/
inductive Event where
  | dispatch (name : String)
  | setResult (future : Nat) (result : Nat)
  | chunkerCall (guildIds : List Snowflake)
  | syncerCall (guildIds : List Snowflake)
deriving DecidableEq, Repr

/-- Modelled from the spec: `User` is a globally unique identity keyed by a
numeric id (§3); field-level representation beyond the key is out of scope
(§1).  `tag` records which construction produced the object. -/
structure User where
  id : Snowflake
  tag : Nat
deriving DecidableEq, Repr

/-- Modelled from the spec: `Guild` is keyed by numeric id, carries an
`unavailable` flag, a `large` flag and a running member count, and owns its
channels (§3); `Guild.__eq__` compares by id.  `channels` holds the owned
channel ids (enough for `get_channel`'s per-guild lookup).  `tag` records
which construction produced the object; `_from_data` merges preserve it. -/
structure Guild where
  id : Snowflake
  unavailable : Bool
  large : Bool
  memberCount : Nat
  channels : List Snowflake
  tag : Nat
deriving DecidableEq, Repr

/-- Decoded guild record of a `GUILD_CREATE` / `READY` payload.
`unavailable = none` models the field being absent. -/
structure GuildData where
  id : Snowflake
  unavailable : Option Bool
  large : Bool
  memberCount : Nat
  channels : List Snowflake
deriving DecidableEq, Repr

/-- Decoded `GUILD_DELETE` record. -/
structure GuildDeleteData where
  id : Snowflake
  unavailable : Option Bool
deriving DecidableEq, Repr

/-- Decoded user record (only the cache key is in scope, spec §1). -/
structure UserData where
  id : Snowflake
deriving DecidableEq, Repr

/-- The emoji found in reaction event records: a custom-emoji id (absent or
zero meaning a plain unicode emoji, matching Python's `if not id:`) plus the
emoji name. -/
structure EmojiData where
  id : Option Snowflake
  name : String
deriving DecidableEq, Repr

/-- Resolved emoji identity of a reaction row.  `_get_reaction_emoji` can
only ever return the unicode name (its custom-emoji branch raises, see
`getReactionEmoji`), so the resolved identity is the name string. -/
abbrev EmojiKey := String

/-- A reaction row owned by a message: `(emoji, count, me)`.  The count is
an `Int` because the code decrements it with plain integer arithmetic. -/
structure Reaction where
  emoji : EmojiKey
  count : Int
  me : Bool
deriving DecidableEq, Repr

/-- Modelled from the spec: a `Message` references its channel and (through
it) its owning guild, and carries a mutable reaction list (§3). -/
structure Message where
  id : Snowflake
  channelId : Snowflake
  guildId : Option Snowflake
  reactions : List Reaction
deriving DecidableEq, Repr

/-- Decoded `MESSAGE_CREATE` record (fields beyond the keys are out of
scope, spec §1). -/
structure MessageData where
  id : Snowflake
  channelId : Snowflake
deriving DecidableEq, Repr

/-- Decoded reaction add/remove record. -/
structure ReactionEventData where
  messageId : Snowflake
  channelId : Snowflake
  userId : Snowflake
  emoji : EmojiData
deriving DecidableEq, Repr

/-- Modelled from the spec: a private channel (DM or group) owned by the
top-level cache; a DM is additionally indexed by its recipient (§3). -/
structure PChannel where
  id : Snowflake
  isDM : Bool
  recipientId : Snowflake
deriving DecidableEq, Repr

/-- Decoded private-channel record of the `READY` payload
(`type = 1` is a DM). -/
structure PChannelData where
  id : Snowflake
  type : Nat
  recipientId : Snowflake
deriving DecidableEq, Repr

/-- `ReadyState = namedtuple('ReadyState', ('launch', 'guilds'))`:
the handshake gate (`launchSet` models `launch.is_set()`) and the
accumulating list of guilds pending chunking. -/
structure ReadyState where
  launchSet : Bool
  guilds : List Guild
deriving DecidableEq, Repr

/-- Decoded `READY` payload. -/
structure ReadyData where
  user : UserData
  guilds : List GuildData
  privateChannels : List PChannelData
deriving DecidableEq, Repr

/-- Python `d.get(k)` on an insertion-ordered dict held as an association
list. -/
def dictGet {α : Type} (k : Snowflake) :
    List (Snowflake × α) → Option α
  | [] => none
  | p :: d => if p.1 = k then some p.2 else dictGet k d

/-- Python dict assignment `d[k] = v` on an insertion-ordered dict:
replace the entry if the key is present, else append it. -/
def dictInsert {α : Type} (k : Snowflake) (v : α)
    (d : List (Snowflake × α)) : List (Snowflake × α) :=
  if (dictGet k d).isSome then
    d.map (fun p => if p.1 = k then (k, v) else p)
  else
    d ++ [(k, v)]

/-- Python `d.pop(k, None)` (the removal effect only). -/
def dictPop {α : Type} (k : Snowflake) :
    List (Snowflake × α) → List (Snowflake × α)
  | [] => []
  | p :: d => if p.1 = k then dictPop k d else p :: dictPop k d

/-- Number of entries stored under key `k`. -/
def keyCount {α : Type} (k : Snowflake) :
    List (Snowflake × α) → Nat
  | [] => 0
  | p :: d => if p.1 = k then keyCount k d + 1 else keyCount k d

/-- The engine state, mirroring `ConnectionState.__init__` / `clear`.
`loop`, `ctx` and the injected callables are not state (the callables show
up as `Event`s); group calls and voice clients are opaque handles, since
only their cache slots are touched by the code in scope.  `fresh` is the
allocation counter for object-identity tags and future identities. -/
structure ConnectionState where
  maxMessages : Nat
  isBot : Option Bool
  listeners : List Listener
  user : Option User
  sequence : Option Nat
  sessionId : Option Nat
  calls : List (Snowflake × Nat)
  users : List (Snowflake × User)
  guilds : List (Snowflake × Guild)
  voiceClients : List (Snowflake × Nat)
  privateChannels : List (Snowflake × PChannel)
  privateChannelsByUser : List (Snowflake × PChannel)
  messages : List Message
  readyState : Option ReadyState
  fresh : Nat
deriving DecidableEq, Repr

/-- `ConnectionState.clear` (state.py:66-77): resets the current user,
sequence, session id and every cache map, and replaces the message buffer
with an empty deque of the same `maxlen`.  `self._listeners` is set in
`__init__`, not here, so the listener registry survives; `_ready_state` is
likewise untouched. -/
def clear (s : ConnectionState) : ConnectionState :=
  { s with
    user := none
    sequence := none
    sessionId := none
    calls := []
    users := []
    guilds := []
    voiceClients := []
    privateChannels := []
    privateChannelsByUser := []
    messages := [] }

/-- `ConnectionState.__init__` (state.py:55-64) for a requested
`max_messages` of `mm`: `self.max_messages = max(..., 100)`, `is_bot =
None`, `self._listeners = []`, then `self.clear()`. -/
def ConnectionState.init (mm : Nat) : ConnectionState :=
  clear
    { maxMessages := Nat.max mm 100
      isBot := none
      listeners := []
      user := none
      sequence := none
      sessionId := none
      calls := []
      users := []
      guilds := []
      voiceClients := []
      privateChannels := []
      privateChannelsByUser := []
      messages := []
      readyState := none
      fresh := 0 }

/-- First pass of `process_listeners` (state.py:80-100): walk the listeners
with their indices, collecting the indices marked for removal and the
effects applied to futures.  A listener of another class is skipped and
kept; a cancelled future is marked for removal and skipped; otherwise the
predicate `lambda s: s.id == guild_id` from `receive_chunk` (the only
registration site, state.py:722) is evaluated — it cannot raise, so the
`except` arm of the source is unreachable here — and on a match the future
is fulfilled, the index marked, and iteration breaks for the chunk class. -/
def scanListeners (lt : ListenerType) (g : Guild) (r : Nat) :
    Nat → List Listener → List Nat × List Event
  | _, [] => ([], [])
  | i, l :: rest =>
    if l.type ≠ lt then
      scanListeners lt g r (i + 1) rest
    else if l.cancelled then
      (i :: (scanListeners lt g r (i + 1) rest).1,
       (scanListeners lt g r (i + 1) rest).2)
    else if g.id == l.predGuildId then
      if l.type = ListenerType.chunk then
        ([i], [Event.setResult l.future r])
      else
        (i :: (scanListeners lt g r (i + 1) rest).1,
         Event.setResult l.future r :: (scanListeners lt g r (i + 1) rest).2)
    else
      scanListeners lt g r (i + 1) rest

/-- Second pass of `process_listeners` (state.py:102-103):
`for index in reversed(removed): del self._listeners[index]`.  Deleting in
descending index order deletes exactly the collected positions, i.e. keeps
every element whose index was not collected. -/
def delListeners : Nat → List Nat → List Listener → List Listener
  | _, _, [] => []
  | i, js, l :: rest =>
    if i ∈ js then delListeners (i + 1) js rest
    else l :: delListeners (i + 1) js rest

/-- `ConnectionState.process_listeners` (state.py:79-103). -/
def processListeners (lt : ListenerType) (g : Guild) (r : Nat)
    (ls : List Listener) : List Listener × List Event :=
  let (js, es) := scanListeners lt g r 0 ls
  (delListeners 0 js ls, es)

/-- `ConnectionState.receive_chunk` (state.py:720-724): create a fresh
future, register a chunk listener whose predicate matches `guild_id`, and
return the future. -/
def receiveChunk (s : ConnectionState) (guildId : Snowflake) :
    ConnectionState × Nat :=
  let future := s.fresh
  let listener : Listener :=
    { type := ListenerType.chunk
      future := future
      cancelled := false
      predGuildId := guildId }
  ({ s with listeners := s.listeners ++ [listener], fresh := s.fresh + 1 },
   future)

/-- `math.ceil(member_count / 1000)` on naturals. -/
def chunksCount (memberCount : Nat) : Nat :=
  (memberCount + 999) / 1000

/-- `ConnectionState.chunks_needed` (state.py:174-176): one `receive_chunk`
wait per `ceil(member_count / 1000)`.  Forcing the generator registers the
listeners and yields the futures in order. -/
def chunksNeeded (s : ConnectionState) (g : Guild) :
    ConnectionState × List Nat :=
  (List.range (chunksCount g.memberCount)).foldl
    (fun acc _ =>
      ((receiveChunk acc.1 g.id).1, acc.2 ++ [(receiveChunk acc.1 g.id).2]))
    (s, [])

/-- The list-slicing `[guilds[i:i + 75] for i in range(0, len(guilds), 75)]`
(state.py:195): consecutive batches of at most 75. -/
def splitEvery75 {α : Type} : List α → List (List α)
  | [] => []
  | x :: xs => (x :: xs).take 75 :: splitEvery75 ((x :: xs).drop 75)
termination_by l => l.length
decreasing_by simp [List.length_drop]; omega

/-- `ConnectionState.try_insert_user` (state.py:122-129): return the cached
user for `data['id']` if present, else construct one, insert it and return
it.  Construction stamps the fresh tag (a new object). -/
def tryInsertUser (s : ConnectionState) (d : UserData) :
    User × ConnectionState :=
  match dictGet d.id s.users with
  | some u => (u, s)
  | none =>
    let u : User := { id := d.id, tag := s.fresh }
    (u, { s with users := dictInsert d.id u s.users, fresh := s.fresh + 1 })

/-- `ConnectionState._delay_ready` (state.py:178-218).  The debounce loop
(lines 181-185) and the `asyncio.wait` on the chunk futures (lines
200-204) are pure suspensions — waiting, a swallowed timeout, and setting
the `launch` gate of a ReadyState that is deleted below — so they leave no
observable state; what remains is: register the chunk waits for every
pending guild, call `chunker` per batch of 75, delete `_ready_state`, call
`syncer` with all cached guild ids when the identity is not a bot
(`if not self.is_bot:` is also taken for the initial `None`), and dispatch
`'ready'` exactly at the end.  With no `_ready_state` the first attribute
read would raise; the readiness path always sets it first
(`parse_ready`). -/
def delayReady (s : ConnectionState) : ConnectionState × List Event :=
  match s.readyState with
  | none => (s, [])
  | some rs =>
    let guilds := rs.guilds
    let s1 := (guilds.foldl
      (fun acc g =>
        ((chunksNeeded acc.1 g).1, acc.2 ++ (chunksNeeded acc.1 g).2))
      (s, [])).1
    let chunkerEvents :=
      (splitEvery75 guilds).map (fun split => Event.chunkerCall (split.map Guild.id))
    let s2 := { s1 with readyState := none }
    let syncEvents :=
      if s2.isBot ≠ some true then [Event.syncerCall (s2.guilds.map (fun p => p.2.id))]
      else []
    (s2, chunkerEvents ++ syncEvents ++ [Event.dispatch "ready"])

/-- Modelled from the spec: construction `Guild(data=..., state=...)` (the
`Guild` class is outside `src/`) populates the cached fields from the
record — an absent `unavailable` field defaults to available (§3, §4.5) —
and stamps a fresh object tag. -/
def mkGuild (d : GuildData) (tag : Nat) : Guild :=
  { id := d.id
    unavailable := d.unavailable.getD false
    large := d.large
    memberCount := d.memberCount
    channels := d.channels
    tag := tag }

/-- Modelled from the spec: `guild._from_data(data)` merges the record's
fields into the existing object in place (§4.5 "merge fields in place"),
so the object tag is preserved. -/
def mergeGuild (g : Guild) (d : GuildData) : Guild :=
  { g with
    unavailable := d.unavailable.getD false
    large := d.large
    memberCount := d.memberCount
    channels := d.channels }

/-- `ConnectionState._add_guild_from_data` (state.py:167-172): construct a
`Guild` from the record and insert it under its id.  The two class-level
`property` patches on lines 169-170 install computed accessors and do not
touch the cache, so they have no counterpart here. -/
def addGuildFromData (s : ConnectionState) (d : GuildData) :
    Guild × ConnectionState :=
  let g := mkGuild d s.fresh
  (g, { s with guilds := dictInsert g.id g s.guilds, fresh := s.fresh + 1 })

/-- `ConnectionState._get_create_guild` (state.py:467-478): when the record
carries `unavailable == False` and the guild is already cached, the guild
has become available — flip `unavailable`, merge the record in place and
return the same object; in every other case construct and insert a new
guild. -/
def getCreateGuild (s : ConnectionState) (d : GuildData) :
    Guild × ConnectionState :=
  if d.unavailable = some false then
    match dictGet d.id s.guilds with
    | some g =>
      let g' := mergeGuild { g with unavailable := false } d
      (g', { s with guilds := dictInsert d.id g' s.guilds })
    | none => addGuildFromData s d
  else
    addGuildFromData s d

/-- A task spawned with `compat.create_task(self._chunk_and_dispatch(guild,
unavailable), ...)` (state.py:524): the guild it will chunk and the
`unavailable` value deciding its final dispatch. -/
structure ChunkTask where
  guild : Guild
  unavailable : Option Bool
deriving DecidableEq, Repr

/-- The effects `_chunk_and_dispatch` (state.py:480-493) will produce when
the spawned task runs: one `chunker` call for the guild, then — after its
bounded wait on the chunk futures, a pure suspension whose timeout is
swallowed — a single `'guild_available'` or `'guild_join'` dispatch.  Its
`chunks_needed` listener registrations happen against the state current at
run time and are not needed by the claims about this path. -/
def chunkTaskEvents (t : ChunkTask) : List Event :=
  Event.chunkerCall [t.guild.id] ::
    (if t.unavailable = some false then [Event.dispatch "guild_available"]
     else [Event.dispatch "guild_join"])

/-- Result of `parse_guild_create`: the new state, the events dispatched
synchronously by the handler, and the tasks it spawned. -/
structure GCResult where
  state : ConnectionState
  events : List Event
  tasks : List ChunkTask
deriving DecidableEq, Repr

/-- `ConnectionState.parse_guild_create` (state.py:495-531). -/
def parseGuildCreate (s : ConnectionState) (d : GuildData) : GCResult :=
  if d.unavailable = some true then
    { state := s, events := [], tasks := [] }
  else
    let g := (getCreateGuild s d).1
    let s' := (getCreateGuild s d).2
    if g.large then
      if d.unavailable = some false then
        match s'.readyState with
        | some rs =>
          let rs' : ReadyState := { launchSet := false, guilds := rs.guilds ++ [g] }
          { state := { s' with readyState := some rs' }
            events := []
            tasks := [] }
        | none =>
          { state := s', events := [],
            tasks := [{ guild := g, unavailable := d.unavailable }] }
      else
        { state := s', events := [],
          tasks := [{ guild := g, unavailable := d.unavailable }] }
    else
      if d.unavailable = some false then
        { state := s', events := [Event.dispatch "guild_available"], tasks := [] }
      else
        { state := s', events := [Event.dispatch "guild_join"], tasks := [] }

/-- Modelled from the spec: the channel factory applied to a READY
private-channel record (`_channel_factory` lives outside `src/`); type 1 is
a direct message owned by its recipient (§3). -/
def mkPChannel (pm : PChannelData) : PChannel :=
  { id := pm.id, isDM := pm.type = 1, recipientId := pm.recipientId }

/-- `ConnectionState._add_private_channel` (state.py:154-157): index the
channel by id and, for a DM, also by its recipient's user id. -/
def addPrivateChannel (s : ConnectionState) (ch : PChannel) : ConnectionState :=
  let s := { s with privateChannels := dictInsert ch.id ch s.privateChannels }
  if ch.isDM then
    { s with privateChannelsByUser :=
        dictInsert ch.recipientId ch s.privateChannelsByUser }
  else s

/-- `ConnectionState.parse_ready` (state.py:220-235), embedded as written:
a fresh `ReadyState` is installed, the current user is cached, and then the
local `guilds` — first bound to `data.get('guilds')` — is immediately
rebound to `self._ready_state.guilds`, the just-created empty accumulator,
so the population loop iterates an empty list.  Had the loop run, its body
calls `self._add_server_from_data`, a method this class does not define
(the constructor defined at state.py:167 is `_add_guild_from_data`), which
would raise `AttributeError`.  The private channels of the payload are then
cached, and `_delay_ready` is spawned as a task (its effects are
`delayReady`). -/
def parseReady (s : ConnectionState) (d : ReadyData) :
    Except PyError (ConnectionState × List Event) := do
  let rs : ReadyState := { launchSet := false, guilds := [] }
  let s := { s with readyState := some rs }
  let (u, s) := tryInsertUser s d.user
  let s := { s with user := some u }
  let _guildsPayload := d.guilds
  let guildsIter := rs.guilds
  let s ← guildsIter.foldlM
    (fun (_st : ConnectionState) (_g : Guild) =>
      (Except.error PyError.attributeError :
        Except PyError ConnectionState))
    s
  let s := d.privateChannels.foldl
    (fun st pm => addPrivateChannel st (mkPChannel pm)) s
  return (s, [])

/-- Owning guild of a channel id, following `get_channel` (state.py:707-718):
guild channels are searched first in guild-map order, then the private
channels (which have no owning guild).  This is what `Message`'s
channel-derived guild reference resolves to at construction time. -/
def getChannelGuildId (s : ConnectionState) (chId : Snowflake) :
    Option Snowflake :=
  match s.guilds.find? (fun p => p.2.channels.contains chId) with
  | some p => some p.2.id
  | none => none

/-- Modelled from the spec: `Message(channel=..., data=..., state=...)`
(the `Message` class is outside `src/`) records its channel and, through
it, its owning guild (§3), and starts with no cached reactions. -/
def mkMsg (s : ConnectionState) (d : MessageData) : Message :=
  { id := d.id
    channelId := d.channelId
    guildId := getChannelGuildId s d.channelId
    reactions := [] }

/-- Append on a `deque(maxlen := m)`: once `m` elements are held, appending
drops the leftmost element.  Uniformly: keep the rightmost `m` elements of
the extended sequence. -/
def dequeAppend {α : Type} (m : Nat) (buf : List α) (x : α) : List α :=
  (buf ++ [x]).drop (buf.length + 1 - m)

/-- `deque(iterable, maxlen := m)`: keep the rightmost `m` elements. -/
def dequeTrunc {α : Type} (m : Nat) (l : List α) : List α :=
  l.drop (l.length - m)

/-- `ConnectionState.parse_message_create` (state.py:240-244): resolve the
channel, construct the message, dispatch `'message'`, and append the
message to the bounded buffer. -/
def parseMessageCreate (s : ConnectionState) (d : MessageData) :
    ConnectionState × List Event :=
  let message := mkMsg s d
  ({ s with messages := dequeAppend s.maxMessages s.messages message },
   [Event.dispatch "message"])

/-- The messages constructed, in order, by a run of `parse_message_create`
over a list of records (the `m1 .. mk` of the spec's buffer property). -/
def createdMessages (s : ConnectionState) : List MessageData → List Message
  | [] => []
  | d :: ds => mkMsg s d :: createdMessages (parseMessageCreate s d).1 ds

/-- State after a run of `parse_message_create` over a list of records,
starting from a freshly constructed engine with requested capacity `mm`. -/
def messageCreateRun (mm : Nat) (ds : List MessageData) : ConnectionState :=
  ds.foldl (fun s d => (parseMessageCreate s d).1) (ConnectionState.init mm)

/-- `ConnectionState.parse_guild_delete` (state.py:544-560): an uncached id
is ignored; `unavailable` truthy flips the flag and dispatches
`'guild_unavailable'`; otherwise the message buffer is rebuilt without the
guild's messages (`msg.guild != guild`, guilds comparing by id), the guild
is evicted, and `'guild_remove'` is dispatched. -/
def parseGuildDelete (s : ConnectionState) (d : GuildDeleteData) :
    ConnectionState × List Event :=
  match dictGet d.id s.guilds with
  | none => (s, [])
  | some g =>
    if d.unavailable.getD false then
      let g' := { g with unavailable := true }
      ({ s with guilds := dictInsert d.id g' s.guilds },
       [Event.dispatch "guild_unavailable"])
    else
      let kept := s.messages.filter (fun m => ¬ m.guildId = some g.id)
      ({ s with
          messages := dequeTrunc s.maxMessages kept
          guilds := dictPop d.id s.guilds },
       [Event.dispatch "guild_remove"])

/-- `ConnectionState._get_reaction_emoji` (state.py:695-705): a falsy
custom-emoji id (absent or zero) resolves to the plain emoji name.  For a
truthy id the code runs `for server in self.servers:` — but
`ConnectionState` defines no attribute `servers` (its guild accessor,
state.py:131-133, is named `guilds`), so this branch raises
`AttributeError`. -/
def getReactionEmoji (d : EmojiData) : Except PyError EmojiKey :=
  match d.id with
  | none => Except.ok d.name
  | some 0 => Except.ok d.name
  | some (_ + 1) => Except.error PyError.attributeError

/-- `utils.get(message.reactions, emoji=emoji)`: first reaction row whose
emoji equals the resolved emoji. -/
def findReaction (ek : EmojiKey) (rs : List Reaction) : Option Reaction :=
  rs.find? (fun r => r.emoji == ek)

/-- In-place mutation of the reaction row found by `findReaction`:
replace the first row with this emoji. -/
def replaceFirstReaction (ek : EmojiKey) (r' : Reaction) :
    List Reaction → List Reaction
  | [] => []
  | r :: rest =>
    if r.emoji == ek then r' :: rest
    else r :: replaceFirstReaction ek r' rest

/-- `message.reactions.remove(reaction)` where `reaction` is the row found
by `findReaction`: delete the first row with this emoji. -/
def eraseFirstReaction (ek : EmojiKey) : List Reaction → List Reaction
  | [] => []
  | r :: rest =>
    if r.emoji == ek then rest
    else r :: eraseFirstReaction ek rest

/-- `_get_message` returns the cached message object; mutating it in place
is modelled by rewriting its buffer slot (messages are identified by id,
unique in the buffer for distinct arrivals). -/
def updateMessageReactions (s : ConnectionState) (msgId : Snowflake)
    (rs : List Reaction) : ConnectionState :=
  { s with messages :=
      s.messages.map (fun m => if m.id = msgId then { m with reactions := rs } else m) }

/-- `ConnectionState.parse_message_reaction_add` (state.py:275-295): for a
cached message, resolve the emoji (which raises for a custom-emoji id, see
`getReactionEmoji`), then either create a fresh reaction row — the
`Reaction` constructor is outside `src/`; modelled from the spec, a fresh
row starts at count 1 (§4.5, §8) — or bump the existing row's count, and
dispatch `'reaction_add'`.  `is_me` reads `self.user.id`, raising when no
user is cached.  The member resolved for the dispatch payload
(`_get_member`) touches channel classes outside `src/` and the payload is
out of scope (§6), so only the dispatch itself is modelled. -/
def parseMessageReactionAdd (s : ConnectionState) (d : ReactionEventData) :
    Except PyError (ConnectionState × List Event) := do
  match s.messages.find? (fun m => m.id == d.messageId) with
  | none => return (s, [])
  | some message =>
    let ek ← getReactionEmoji d.emoji
    match s.user with
    | none => Except.error PyError.attributeError
    | some u =>
      let isMe := d.userId == u.id
      let newReactions :=
        match findReaction ek message.reactions with
        | none =>
          message.reactions ++ [{ emoji := ek, count := 1, me := isMe }]
        | some r =>
          let r' := { r with count := r.count + 1, me := r.me || isMe }
          replaceFirstReaction ek r' message.reactions
      return (updateMessageReactions s message.id newReactions,
              [Event.dispatch "reaction_add"])

/-- `ConnectionState.parse_message_reaction_remove` (state.py:304-324): for
a cached message, resolve the emoji (which raises for a custom-emoji id,
see `getReactionEmoji`); a missing row is logged and ignored (eventual
consistency); otherwise decrement the count, clear `me` when the remover is
the current user, drop the row at count zero, and dispatch
`'reaction_remove'`. -/
def parseMessageReactionRemove (s : ConnectionState) (d : ReactionEventData) :
    Except PyError (ConnectionState × List Event) := do
  match s.messages.find? (fun m => m.id == d.messageId) with
  | none => return (s, [])
  | some message =>
    let ek ← getReactionEmoji d.emoji
    match findReaction ek message.reactions with
    | none => return (s, [])
    | some r =>
      match s.user with
      | none => Except.error PyError.attributeError
      | some u =>
        let r' := { r with count := r.count - 1 }
        let r' := if d.userId == u.id then { r' with me := false } else r'
        let newReactions :=
          if r'.count = 0 then eraseFirstReaction ek message.reactions
          else replaceFirstReaction ek r' message.reactions
        return (updateMessageReactions s message.id newReactions,
                [Event.dispatch "reaction_remove"])

/-- Structural characterization of one `process_listeners` pass: walk the
list; a skipped or unmatched listener is kept, a cancelled one dropped, and
the first fulfilled chunk listener is dropped with the remainder kept
untouched. -/
def processGo (lt : ListenerType) (g : Guild) (r : Nat) :
    List Listener → List Listener × List Event
  | [] => ([], [])
  | l :: rest =>
    if l.type ≠ lt then
      ((l :: (processGo lt g r rest).1), (processGo lt g r rest).2)
    else if l.cancelled then
      processGo lt g r rest
    else if g.id == l.predGuildId then
      if l.type = ListenerType.chunk then
        (rest, [Event.setResult l.future r])
      else
        ((processGo lt g r rest).1,
         Event.setResult l.future r :: (processGo lt g r rest).2)
    else
      ((l :: (processGo lt g r rest).1), (processGo lt g r rest).2)

/-- Recognizer for the `'ready'` dispatch among a handler's effects. -/
def isReadyDispatch : Event → Bool
  | Event.dispatch n => n == "ready"
  | _ => false

/-- Concrete instances for the readiness witness. -/
def c1Guild : Guild :=
  { id := 5, unavailable := false, large := true, memberCount := 2500,
    channels := [], tag := 0 }

/-- Ready state pending exactly the witness guild. -/
def c1Ready : ReadyState := { launchSet := true, guilds := [c1Guild] }

/-- Engine state entering `_delay_ready` in the witness scenario. -/
def c1State : ConnectionState :=
  { ConnectionState.init 5000 with readyState := some c1Ready }

/-- Concrete instances for the user-cache witness. -/
def c6State : ConnectionState := ConnectionState.init 5000

/-- The READY payload used to exhibit the dead initial-guild loop: one
large guild with 2500 members. -/
def c3Payload : ReadyData :=
  { user := { id := 42 }
    guilds := [{ id := 1, unavailable := none, large := true,
                 memberCount := 2500, channels := [] }]
    privateChannels := [] }

/-- State produced by `parse_ready` on `c3Payload`. -/
def c3State : ConnectionState :=
  match parseReady (ConnectionState.init 5000) c3Payload with
  | Except.ok r => r.1
  | Except.error _ => ConnectionState.init 5000

/-- A cached message with no reaction rows, target of the reaction
events. -/
def rxMessage : Message :=
  { id := 10, channelId := 20, guildId := none, reactions := [] }

/-- Engine state with a current user and `rxMessage` cached. -/
def rxState : ConnectionState :=
  { ConnectionState.init 5000 with
      user := some { id := 42, tag := 0 }
      messages := [rxMessage] }

/-- A reaction record whose emoji carries a custom-emoji id. -/
def rxCustomEmojiData : ReactionEventData :=
  { messageId := 10, channelId := 20, userId := 7,
    emoji := { id := some 99, name := "blob" } }

/-- The 105 message records of the buffer witness. -/
def c4Data : List MessageData :=
  (List.range 105).map (fun i => { id := i, channelId := 0 })

/-- Cached guild of the guild-delete witness. -/
def c5Guild : Guild :=
  { id := 1, unavailable := false, large := false, memberCount := 3,
    channels := [100], tag := 0 }

/-- Engine state of the guild-delete witness: guild 1 cached, two of the
three buffered messages belonging to it. -/
def c5State : ConnectionState :=
  { ConnectionState.init 5000 with
      guilds := [(1, c5Guild)]
      messages :=
        [{ id := 1, channelId := 100, guildId := some 1, reactions := [] },
         { id := 2, channelId := 200, guildId := none, reactions := [] },
         { id := 3, channelId := 100, guildId := some 1, reactions := [] }] }

/-- Guild-delete record of the witness. -/
def c5Delete : GuildDeleteData := { id := 1, unavailable := none }

/-- Registry prefix of the chunk-resolution witness: a cancelled listener
for guild 5 and a live listener for guild 7. -/
def c7Pre : List Listener :=
  [{ type := ListenerType.chunk, future := 0, cancelled := true,
     predGuildId := 5 },
   { type := ListenerType.chunk, future := 1, cancelled := false,
     predGuildId := 7 }]

/-- First live matching listener of the chunk-resolution witness. -/
def c7W : Listener :=
  { type := ListenerType.chunk, future := 2, cancelled := false,
    predGuildId := 5 }

/-- Registry suffix of the chunk-resolution witness: a further live
listener for guild 5 that must survive untouched. -/
def c7Post : List Listener :=
  [{ type := ListenerType.chunk, future := 3, cancelled := false,
     predGuildId := 5 }]

/-- Argument guild of the chunk-resolution witness. -/
def c7Guild : Guild :=
  { id := 5, unavailable := false, large := true, memberCount := 2500,
    channels := [], tag := 0 }

/-- First guild-create record of the re-availability scenario: the
`unavailable` field absent, the guild large. -/
def c2Data1 : GuildData :=
  { id := 1, unavailable := none, large := true, memberCount := 2500,
    channels := [] }

/-- Second guild-create record: same id, `unavailable = false`. -/
def c2Data2 : GuildData := { c2Data1 with unavailable := some false }

/-- Starting state of the counterexample: the readiness handshake is in
progress (a ReadyState is active). -/
def c2Start : ConnectionState :=
  { ConnectionState.init 5000 with
      readyState := some { launchSet := false, guilds := [] } }

/-- Result of the second guild-create of the counterexample run. -/
def c2Second : GCResult :=
  parseGuildCreate (parseGuildCreate c2Start c2Data1).state c2Data2

/-- Recognizer for the `'guild_available'` dispatch among effects. -/
def isGuildAvailableDispatch : Event → Bool
  | Event.dispatch n => n == "guild_available"
  | _ => false

/-- Starting state for the amended-claim witness: no handshake active. -/
def c2PlainStart : ConnectionState := ConnectionState.init 5000

/-- Unicode reaction record of the intent-check scenario, parameterized by
the reacting user. -/
def rxUnicode (uid : Snowflake) : ReactionEventData :=
  { messageId := 10, channelId := 20, userId := uid,
    emoji := { id := none, name := "ok" } }

/-- Buffer contents after the four-step unicode reaction scenario. -/
def rxScenario : Except PyError (List Reaction × List Reaction × List Reaction) := do
  let (s1, _) ← parseMessageReactionAdd rxState (rxUnicode 7)
  let (s2, _) ← parseMessageReactionAdd s1 (rxUnicode 8)
  let (s3, _) ← parseMessageReactionRemove s2 (rxUnicode 7)
  let (s4, _) ← parseMessageReactionRemove s3 (rxUnicode 8)
  return ((s2.messages.headD rxMessage).reactions,
          (s3.messages.headD rxMessage).reactions,
          (s4.messages.headD rxMessage).reactions)

/-- Storing under `k` makes `k` retrievable with the stored value. -/
theorem dictGet_dictInsert {α : Type} (k : Snowflake) (v : α)
    (d : List (Snowflake × α)) : dictGet k (dictInsert k v d) = some v := by
  unfold dictInsert
  by_cases h : (dictGet k d).isSome
  · simp only [h, if_true]
    induction d with
    | nil => simp [dictGet] at h
    | cons p d ih =>
      by_cases hp : p.1 = k
      · simp [dictGet, hp]
      · simp only [dictGet, hp, if_neg, not_false_iff, List.map_cons] at h ⊢
        exact ih h
  · simp only [h, if_false]
    induction d with
    | nil => simp [dictGet]
    | cons p d ih =>
      by_cases hp : p.1 = k
      · simp [dictGet, hp] at h
      · simp only [dictGet, hp, if_neg, not_false_iff, List.cons_append] at h ⊢
        exact ih h

/-- Popping `k` makes `k` unretrievable. -/
theorem dictGet_dictPop {α : Type} (k : Snowflake)
    (d : List (Snowflake × α)) : dictGet k (dictPop k d) = none := by
  induction d with
  | nil => rfl
  | cons p d ih =>
    by_cases hp : p.1 = k
    · simpa [dictPop, hp] using ih
    · simpa [dictPop, dictGet, hp] using ih

/-- An unretrievable key has `keyCount` zero. -/
theorem keyCount_eq_zero_of_get_none {α : Type} (k : Snowflake)
    (d : List (Snowflake × α)) (h : dictGet k d = none) :
    keyCount k d = 0 := by
  induction d with
  | nil => rfl
  | cons p d ih =>
    by_cases hp : p.1 = k
    · simp [dictGet, hp] at h
    · simp only [dictGet, hp, if_neg, not_false_iff] at h
      simpa [keyCount, hp] using ih h

/-- A retrievable key has positive `keyCount`. -/
theorem keyCount_pos_of_get_some {α : Type} (k : Snowflake)
    (d : List (Snowflake × α)) (h : (dictGet k d).isSome) :
    1 ≤ keyCount k d := by
  induction d with
  | nil => simp [dictGet] at h
  | cons p d ih =>
    by_cases hp : p.1 = k
    · simp [keyCount, hp]
    · simp only [dictGet, hp, if_neg, not_false_iff] at h
      simpa [keyCount, hp] using ih h

/-- Replacing the value stored under `k` does not change how many entries
carry `k`. -/
theorem keyCount_map_replace {α : Type} (k : Snowflake) (v : α)
    (d : List (Snowflake × α)) :
    keyCount k (d.map (fun p => if p.1 = k then (k, v) else p))
      = keyCount k d := by
  induction d with
  | nil => rfl
  | cons p d ih =>
    by_cases hp : p.1 = k
    · simpa [keyCount, hp] using ih
    · simpa [keyCount, hp] using ih

/-- Appending a single entry under `k` adds one to its `keyCount`. -/
theorem keyCount_append_single {α : Type} (k : Snowflake) (v : α)
    (d : List (Snowflake × α)) :
    keyCount k (d ++ [(k, v)]) = keyCount k d + 1 := by
  induction d with
  | nil => simp [keyCount]
  | cons p d ih =>
    by_cases hp : p.1 = k
    · simpa [keyCount, hp] using ih
    · simpa [keyCount, hp] using ih

/-- Storing under a key held by at most one entry leaves exactly one entry
for it (dict-key uniqueness, spec §3 invariants). -/
theorem keyCount_dictInsert {α : Type} (k : Snowflake) (v : α)
    (d : List (Snowflake × α)) (hc : keyCount k d ≤ 1) :
    keyCount k (dictInsert k v d) = 1 := by
  unfold dictInsert
  by_cases h : (dictGet k d).isSome
  · rw [if_pos h, keyCount_map_replace]
    exact le_antisymm hc (keyCount_pos_of_get_some k d h)
  · rw [if_neg h, keyCount_append_single]
    have h0 : keyCount k d = 0 :=
      keyCount_eq_zero_of_get_none k d
        (by cases hd : dictGet k d with
            | none => rfl
            | some v => simp [hd] at h)
    omega

/-- `ListenerType` has a single value. -/
theorem listenerType_eq_chunk (t : ListenerType) : t = ListenerType.chunk := by
  cases t
  rfl

/-- Every index collected by the scan is at least the start index. -/
theorem scanListeners_lb (lt : ListenerType) (g : Guild) (r : Nat) :
    ∀ (ls : List Listener) (n j : Nat),
      j ∈ (scanListeners lt g r n ls).1 → n ≤ j := by
  intro ls
  induction ls with
  | nil =>
    intro n j hj
    simp [scanListeners] at hj
  | cons l rest ih =>
    intro n j hj
    simp only [scanListeners] at hj
    by_cases h1 : l.type ≠ lt
    · rw [if_pos h1] at hj
      exact Nat.le_of_succ_le (ih (n + 1) j hj)
    · rw [if_neg h1] at hj
      by_cases h2 : l.cancelled = true
      · rw [if_pos h2] at hj
        rcases List.mem_cons.mp hj with h | hj'
        · omega
        · exact Nat.le_of_succ_le (ih (n + 1) j hj')
      · rw [if_neg h2] at hj
        by_cases h3 : (g.id == l.predGuildId) = true
        · rw [if_pos h3] at hj
          simp only [if_true] at hj
          have := List.mem_singleton.mp hj
          omega
        · rw [if_neg h3] at hj
          exact Nat.le_of_succ_le (ih (n + 1) j hj)

/-- Deleting an index below the cursor is a no-op. -/
theorem delListeners_drop_low (j : Nat) (js : List Nat) :
    ∀ (ls : List Listener) (m : Nat), j < m →
      delListeners m (j :: js) ls = delListeners m js ls := by
  intro ls
  induction ls with
  | nil => intro m _; rfl
  | cons l rest ih =>
    intro m hm
    have hiff : m ∈ j :: js ↔ m ∈ js := by
      simp only [List.mem_cons, or_iff_right_iff_imp]
      omega
    by_cases h : m ∈ js
    · simp only [delListeners, hiff.mpr h, if_pos, h]
      exact ih (m + 1) (by omega)
    · have h' : ¬ m ∈ j :: js := fun hc => h (hiff.mp hc)
      simp only [delListeners, h', h, if_neg, not_false_iff]
      rw [ih (m + 1) (by omega)]

/-- Deleting no indices keeps the list. -/
theorem delListeners_nil (ls : List Listener) :
    ∀ m : Nat, delListeners m [] ls = ls := by
  induction ls with
  | nil => intro m; rfl
  | cons l rest ih =>
    intro m
    simp only [delListeners, List.not_mem_nil, if_neg, not_false_iff]
    rw [ih]

/-- The two-pass `process_listeners` (collect removal indices, then delete
them in reverse order) computes exactly the structural single pass. -/
theorem processListeners_eq_go (lt : ListenerType) (g : Guild) (r : Nat)
    (ls : List Listener) :
    processListeners lt g r ls = processGo lt g r ls := by
  suffices h : ∀ (ls : List Listener) (n : Nat),
      (delListeners n (scanListeners lt g r n ls).1 ls,
        (scanListeners lt g r n ls).2) = processGo lt g r ls by
    exact h ls 0
  intro ls
  induction ls with
  | nil => intro n; rfl
  | cons l rest ih =>
    intro n
    simp only [scanListeners, processGo]
    by_cases h1 : l.type ≠ lt
    · rw [if_pos h1, if_pos h1]
      have hn : ¬ n ∈ (scanListeners lt g r (n + 1) rest).1 := fun h =>
        absurd (scanListeners_lb lt g r rest (n + 1) n h) (by omega)
      simp only [delListeners, hn, if_neg, not_false_iff]
      rw [← ih (n + 1)]
    · rw [if_neg h1, if_neg h1]
      by_cases h2 : l.cancelled = true
      · rw [if_pos h2, if_pos h2]
        have hmem : n ∈ n :: (scanListeners lt g r (n + 1) rest).1 :=
          List.mem_cons_self n _
        simp only [delListeners, hmem, if_pos]
        rw [delListeners_drop_low n (scanListeners lt g r (n + 1) rest).1 rest
          (n + 1) (by omega)]
        exact ih (n + 1)
      · rw [if_neg h2, if_neg h2]
        by_cases h3 : (g.id == l.predGuildId) = true
        · rw [if_pos h3, if_pos h3]
          simp only [if_true]
          have hmem : n ∈ ([n] : List Nat) := List.mem_singleton.mpr rfl
          simp only [delListeners, hmem, if_pos]
          rw [delListeners_drop_low n [] rest (n + 1) (by omega),
            delListeners_nil]
        · rw [if_neg h3, if_neg h3]
          have hn : ¬ n ∈ (scanListeners lt g r (n + 1) rest).1 := fun h =>
            absurd (scanListeners_lb lt g r rest (n + 1) n h) (by omega)
          simp only [delListeners, hn, if_neg, not_false_iff]
          rw [← ih (n + 1)]

/-- Appending onto a bounded deque never exceeds the bound. -/
theorem dequeAppend_length_le {α : Type} (m : Nat) (buf : List α) (x : α)
    (h : buf.length ≤ m) : (dequeAppend m buf x).length ≤ m := by
  unfold dequeAppend
  rw [List.length_drop, List.length_append, List.length_singleton]
  omega

/-- A bounded deque built by repeated appends holds exactly the rightmost
`m` elements of everything ever appended. -/
theorem foldl_dequeAppend {α : Type} (m : Nat) :
    ∀ (ms : List α) (buf : List α), buf.length ≤ m →
      List.foldl (dequeAppend m) buf ms
        = (buf ++ ms).drop (buf.length + ms.length - m) := by
  intro ms
  induction ms with
  | nil =>
    intro buf h
    simp only [List.foldl_nil, List.append_nil, List.length_nil,
      Nat.add_zero]
    rw [Nat.sub_eq_zero_of_le h, List.drop_zero]
  | cons x ms ih =>
    intro buf h
    have hlen : (dequeAppend m buf x).length ≤ m :=
      dequeAppend_length_le m buf x h
    rw [List.foldl_cons, ih (dequeAppend m buf x) hlen]
    have hA : dequeAppend m buf x = (buf ++ [x]).drop (buf.length + 1 - m) :=
      rfl
    have hAlen : (dequeAppend m buf x).length
        = buf.length + 1 - (buf.length + 1 - m) := by
      rw [hA, List.length_drop, List.length_append, List.length_singleton]
    have hk : buf.length + 1 - m ≤ (buf ++ [x]).length := by
      rw [List.length_append, List.length_singleton]
      omega
    rw [hAlen, hA, ← List.drop_append_of_le_length hk, List.drop_drop,
      List.append_assoc, List.singleton_append]
    congr 1
    simp only [List.length_cons]
    omega

/-- `parse_message_create` leaves the configured capacity unchanged. -/
theorem parseMessageCreate_maxMessages (s : ConnectionState)
    (d : MessageData) : (parseMessageCreate s d).1.maxMessages = s.maxMessages :=
  rfl

/-- The buffer of a `parse_message_create` run is the pure deque fold of the
constructed messages. -/
theorem messageCreateFold_messages :
    ∀ (ds : List MessageData) (s : ConnectionState),
      (ds.foldl (fun s d => (parseMessageCreate s d).1) s).messages
        = List.foldl (dequeAppend s.maxMessages) s.messages
            (createdMessages s ds) := by
  intro ds
  induction ds with
  | nil => intro s; rfl
  | cons d ds ih =>
    intro s
    rw [List.foldl_cons, ih]
    rfl

/-- One constructed message per record. -/
theorem createdMessages_length :
    ∀ (ds : List MessageData) (s : ConnectionState),
      (createdMessages s ds).length = ds.length := by
  intro ds
  induction ds with
  | nil => intro s; rfl
  | cons d ds ih =>
    intro s
    simp only [createdMessages, List.length_cons, ih]

/-- Effect of one `receive_chunk` on the listener registry. -/
theorem receiveChunk_listeners (s : ConnectionState) (gid : Snowflake) :
    (receiveChunk s gid).1.listeners
      = s.listeners
        ++ [{ type := ListenerType.chunk, future := s.fresh,
              cancelled := false, predGuildId := gid }] :=
  rfl

/-- `receive_chunk` does not touch the ready state. -/
theorem receiveChunk_readyState (s : ConnectionState) (gid : Snowflake) :
    (receiveChunk s gid).1.readyState = s.readyState :=
  rfl

/-- `receive_chunk` does not touch the bot flag. -/
theorem receiveChunk_isBot (s : ConnectionState) (gid : Snowflake) :
    (receiveChunk s gid).1.isBot = s.isBot :=
  rfl

/-- Registering `n` chunk waits appends `n` chunk-class listeners keyed to
the guild id, and touches nothing else the readiness path reads. -/
theorem receiveChunk_fold_aux (gid : Snowflake) :
    ∀ (n : Nat) (p : ConnectionState × List Nat),
      (((List.range n).foldl
          (fun acc (_ : Nat) =>
            ((receiveChunk acc.1 gid).1, acc.2 ++ [(receiveChunk acc.1 gid).2]))
          p).1.listeners.map (fun l => (l.type, l.predGuildId))
        = p.1.listeners.map (fun l => (l.type, l.predGuildId))
          ++ List.replicate n (ListenerType.chunk, gid))
      ∧ ((List.range n).foldl
          (fun acc (_ : Nat) =>
            ((receiveChunk acc.1 gid).1, acc.2 ++ [(receiveChunk acc.1 gid).2]))
          p).1.readyState = p.1.readyState
      ∧ ((List.range n).foldl
          (fun acc (_ : Nat) =>
            ((receiveChunk acc.1 gid).1, acc.2 ++ [(receiveChunk acc.1 gid).2]))
          p).1.isBot = p.1.isBot := by
  intro n
  induction n with
  | zero =>
    intro p
    simp [List.range_zero]
  | succ n ih =>
    intro p
    simp only [List.range_succ, List.foldl_append, List.foldl_cons,
      List.foldl_nil]
    refine ⟨?_, ?_, ?_⟩
    · rw [receiveChunk_listeners, List.map_append, (ih p).1,
        List.map_singleton, List.replicate_succ', List.append_assoc]
    · rw [receiveChunk_readyState]
      exact (ih p).2.1
    · rw [receiveChunk_isBot]
      exact (ih p).2.2

/-- `chunks_needed` registers exactly `ceil(member_count / 1000)` chunk
listeners for the guild, in registration order after the existing ones. -/
theorem chunksNeeded_listeners (s : ConnectionState) (g : Guild) :
    (chunksNeeded s g).1.listeners.map (fun l => (l.type, l.predGuildId))
      = s.listeners.map (fun l => (l.type, l.predGuildId))
        ++ List.replicate (chunksCount g.memberCount)
            (ListenerType.chunk, g.id) :=
  (receiveChunk_fold_aux g.id (chunksCount g.memberCount) (s, [])).1

/-- `chunks_needed` does not touch the ready state or the bot flag. -/
theorem chunksNeeded_frame (s : ConnectionState) (g : Guild) :
    (chunksNeeded s g).1.readyState = s.readyState
      ∧ (chunksNeeded s g).1.isBot = s.isBot :=
  ⟨(receiveChunk_fold_aux g.id (chunksCount g.memberCount) (s, [])).2.1,
   (receiveChunk_fold_aux g.id (chunksCount g.memberCount) (s, [])).2.2⟩

/-- Batching a list of at most 75 guilds yields a single batch. -/
theorem splitEvery75_singleton {α : Type} (x : α) :
    splitEvery75 [x] = [[x]] := by
  rw [splitEvery75]
  norm_num
  rw [splitEvery75]

/-- Claim C1: for a ready record whose pending list contains exactly one
large guild with `member_count = 2500`, the readiness orchestrator
(`_delay_ready`) registers exactly `ceil(2500/1000) = 3` chunk-class
listeners keyed to that guild before transitioning to Ready (the ready
state is consumed), and emits exactly one `'ready'` dispatch. -/
theorem readiness_three_chunk_waits_one_ready
    (s : ConnectionState) (rs : ReadyState) (g : Guild)
    (h1 : s.readyState = some rs) (h2 : rs.guilds = [g])
    (h3 : g.memberCount = 2500) :
    (delayReady s).1.listeners.map (fun l => (l.type, l.predGuildId))
      = s.listeners.map (fun l => (l.type, l.predGuildId))
        ++ List.replicate 3 (ListenerType.chunk, g.id)
    ∧ (delayReady s).1.readyState = none
    ∧ (delayReady s).2.countP (fun e => isReadyDispatch e) = 1 := by
  have hcc : chunksCount g.memberCount = 3 := by
    rw [h3]
    decide
  simp only [delayReady, h1, h2, List.foldl_cons, List.foldl_nil]
  refine ⟨?_, trivial, ?_⟩
  · rw [chunksNeeded_listeners, hcc]
  · rw [splitEvery75_singleton, List.map_singleton]
    simp only [List.countP_append, List.countP_cons, List.countP_nil]
    have hsync : List.countP (fun e => isReadyDispatch e)
        (if ((chunksNeeded s g).1).isBot ≠ some true then
          [Event.syncerCall (List.map (fun p => p.2.id) ((chunksNeeded s g).1).guilds)]
        else []) = 0 := by
      split
      · simp [isReadyDispatch]
      · simp
    simp only [List.countP_append] at hsync ⊢
    simp [isReadyDispatch, hsync]

/-- Witness for claim C1 at a concrete state. -/
theorem readiness_three_chunk_waits_one_ready_witness :
    (c1State.readyState = some c1Ready ∧ c1Ready.guilds = [c1Guild]
      ∧ c1Guild.memberCount = 2500)
    ∧ ((delayReady c1State).1.listeners.map (fun l => (l.type, l.predGuildId))
        = c1State.listeners.map (fun l => (l.type, l.predGuildId))
          ++ List.replicate 3 (ListenerType.chunk, c1Guild.id)
      ∧ (delayReady c1State).1.readyState = none
      ∧ (delayReady c1State).2.countP (fun e => isReadyDispatch e) = 1) :=
  ⟨⟨rfl, rfl, rfl⟩,
   readiness_three_chunk_waits_one_ready c1State c1Ready c1Guild rfl rfl rfl⟩

/-- Claim C10: `clear()` resets the current user, sequence, session id,
calls, users, guilds, voice clients, private channels (including the
by-user reverse index) and the message buffer, but leaves the
listener/future registry untouched: every listener registered before
`clear()` is still registered afterwards, and a later chunk event resolves
the preserved registry exactly as it would have before the reset. -/
theorem clear_preserves_listener_registry (s : ConnectionState) :
    (clear s).listeners = s.listeners
    ∧ (clear s).user = none
    ∧ (clear s).sequence = none
    ∧ (clear s).sessionId = none
    ∧ (clear s).calls = []
    ∧ (clear s).users = []
    ∧ (clear s).guilds = []
    ∧ (clear s).voiceClients = []
    ∧ (clear s).privateChannels = []
    ∧ (clear s).privateChannelsByUser = []
    ∧ (clear s).messages = []
    ∧ ∀ (g : Guild) (r : Nat),
        processListeners ListenerType.chunk g r (clear s).listeners
          = processListeners ListenerType.chunk g r s.listeners :=
  ⟨rfl, rfl, rfl, rfl, rfl, rfl, rfl, rfl, rfl, rfl, rfl,
   fun _ _ => rfl⟩

/-- A cached id makes `try_insert_user` a pure fetch. -/
theorem tryInsertUser_hit (s : ConnectionState) (d : UserData) (u : User)
    (hu : dictGet d.id s.users = some u) : tryInsertUser s d = (u, s) := by
  unfold tryInsertUser
  rw [hu]

/-- An uncached id makes `try_insert_user` construct and insert. -/
theorem tryInsertUser_miss (s : ConnectionState) (d : UserData)
    (hn : dictGet d.id s.users = none) :
    tryInsertUser s d
      = ({ id := d.id, tag := s.fresh },
         { s with
            users := dictInsert d.id { id := d.id, tag := s.fresh } s.users
            fresh := s.fresh + 1 }) := by
  unfold tryInsertUser
  rw [hn]

/-- Claim C6: `try_insert_user` is insert-or-fetch: a second call with the
same id returns the identical cached object and leaves the state (in
particular the allocation counter) untouched, while a first call on an
uncached id constructs the entry (bumping the allocator) and inserts it. -/
theorem try_insert_user_reference_stable (s : ConnectionState)
    (d1 d2 : UserData) (h : d2.id = d1.id) :
    tryInsertUser (tryInsertUser s d1).2 d2
      = ((tryInsertUser s d1).1, (tryInsertUser s d1).2)
    ∧ (dictGet d1.id s.users = none →
        dictGet d1.id (tryInsertUser s d1).2.users
            = some (tryInsertUser s d1).1
          ∧ (tryInsertUser s d1).2.fresh = s.fresh + 1) := by
  have hget : dictGet d1.id (tryInsertUser s d1).2.users
      = some (tryInsertUser s d1).1 := by
    cases hd : dictGet d1.id s.users with
    | some u => rw [tryInsertUser_hit s d1 u hd]; exact hd
    | none =>
      rw [tryInsertUser_miss s d1 hd]
      exact dictGet_dictInsert d1.id _ s.users
  refine ⟨?_, fun hnone => ⟨hget, ?_⟩⟩
  · exact tryInsertUser_hit (tryInsertUser s d1).2 d2 (tryInsertUser s d1).1
      (by rw [h]; exact hget)
  · rw [tryInsertUser_miss s d1 hnone]

/-- Witness for claim C6 at a concrete state. -/
theorem try_insert_user_reference_stable_witness :
    ((9 : Snowflake) = 9)
    ∧ (tryInsertUser (tryInsertUser c6State { id := 9 }).2 { id := 9 }
        = ((tryInsertUser c6State { id := 9 }).1,
           (tryInsertUser c6State { id := 9 }).2)
      ∧ (dictGet 9 c6State.users = none →
          dictGet 9 (tryInsertUser c6State { id := 9 }).2.users
              = some (tryInsertUser c6State { id := 9 }).1
            ∧ (tryInsertUser c6State { id := 9 }).2.fresh
                = c6State.fresh + 1)) :=
  ⟨rfl, try_insert_user_reference_stable c6State { id := 9 } { id := 9 } rfl⟩

/-- Claim C3 (failing input): `parse_ready` on a payload carrying one large
guild succeeds but caches no guild at all and leaves the pending-chunk list
empty — the population loop iterates `self._ready_state.guilds`, the empty
accumulator to which the local `guilds` was just rebound, instead of the
payload's guild list (and its body names `_add_server_from_data`, which the
class does not define). -/
theorem parse_ready_caches_no_initial_guilds :
    parseReady (ConnectionState.init 5000) c3Payload
        = Except.ok (c3State, [])
    ∧ c3State.guilds = []
    ∧ dictGet 1 c3State.guilds = none
    ∧ c3State.readyState = some { launchSet := false, guilds := [] } :=
  ⟨rfl, rfl, rfl, rfl⟩

/-- Claim C8 (failing input): a reaction-add for a cached message whose
emoji carries a custom-emoji id raises `AttributeError` instead of creating
a count-1 reaction row: `_get_reaction_emoji` iterates `self.servers`, an
attribute `ConnectionState` does not define (its accessor is `guilds`). -/
theorem reaction_add_custom_emoji_raises :
    parseMessageReactionAdd rxState rxCustomEmojiData
      = Except.error PyError.attributeError :=
  rfl

/-- Claim C9 (failing input): a reaction-remove for a cached message with
no matching reaction row is only a logged no-op for plain unicode emoji;
with a custom-emoji id it raises `AttributeError` in `_get_reaction_emoji`
(`self.servers` is not defined) before the missing-row check is reached. -/
theorem reaction_remove_custom_emoji_raises :
    parseMessageReactionRemove rxState rxCustomEmojiData
      = Except.error PyError.attributeError :=
  rfl

/-- Intent check for C9 on the reachable unicode path: a reaction-remove
whose target message is cached but has no matching row leaves the state
untouched, raises nothing, and dispatches nothing. -/
theorem reaction_remove_missing_row_unicode_noop (s : ConnectionState)
    (d : ReactionEventData) (m : Message)
    (hm : s.messages.find? (fun x => x.id == d.messageId) = some m)
    (he : d.emoji.id = none)
    (hr : findReaction d.emoji.name m.reactions = none) :
    parseMessageReactionRemove s d = Except.ok (s, []) := by
  unfold parseMessageReactionRemove
  rw [hm]
  simp only [getReactionEmoji, he, bind, Except.bind]
  rw [hr]
  rfl

/-- Claim C4: over any sequence of message-create events the history
buffer never exceeds the configured capacity `max(max_messages, 100)`, and
appending `m1 .. m(N+5)` into the fresh buffer of capacity `N` leaves
exactly `m6 .. m(N+5)` in arrival order (FIFO eviction of the oldest). -/
theorem message_buffer_capacity_and_fifo (mm : Nat) (ds : List MessageData) :
    (messageCreateRun mm ds).messages.length ≤ Nat.max mm 100
    ∧ (ds.length = Nat.max mm 100 + 5 →
        (messageCreateRun mm ds).messages
          = (createdMessages (ConnectionState.init mm) ds).drop 5) := by
  have hcl := createdMessages_length ds (ConnectionState.init mm)
  have h1 : (messageCreateRun mm ds).messages
      = (createdMessages (ConnectionState.init mm) ds).drop
          ((createdMessages (ConnectionState.init mm) ds).length
            - Nat.max mm 100) := by
    unfold messageCreateRun
    rw [messageCreateFold_messages ds (ConnectionState.init mm)]
    have hmax : (ConnectionState.init mm).maxMessages = Nat.max mm 100 := rfl
    have hmsgs : (ConnectionState.init mm).messages = [] := rfl
    rw [hmax, hmsgs,
      foldl_dequeAppend (Nat.max mm 100) _ [] (by simp)]
    simp
  constructor
  · rw [h1, List.length_drop]
    omega
  · intro hlen
    rw [h1]
    congr 1
    omega

/-- Witness for claim C4 at requested capacity 0 (floored to 100). -/
theorem message_buffer_capacity_and_fifo_witness :
    ((messageCreateRun 0 c4Data).messages.length ≤ Nat.max 0 100
      ∧ c4Data.length = Nat.max 0 100 + 5)
    ∧ (messageCreateRun 0 c4Data).messages
        = (createdMessages (ConnectionState.init 0) c4Data).drop 5 :=
  ⟨⟨(message_buffer_capacity_and_fifo 0 c4Data).1, by decide⟩,
   (message_buffer_capacity_and_fifo 0 c4Data).2 (by decide)⟩

/-- Claim C5: a guild-delete that is not unavailable-only purges exactly
the cached guild's messages from the buffer — every message of that guild
is gone, no other message is touched, relative order is preserved
(sublist) and the capacity bound still holds — evicts the guild from the
guild map, and dispatches exactly `'guild_remove'`. -/
theorem guild_delete_purges_only_guild_messages (s : ConnectionState)
    (d : GuildDeleteData) (g : Guild)
    (hg : dictGet d.id s.guilds = some g)
    (hu : d.unavailable.getD false = false)
    (hlen : s.messages.length ≤ s.maxMessages) :
    (parseGuildDelete s d).1.messages
        = s.messages.filter (fun m => ¬ m.guildId = some g.id)
    ∧ (∀ m ∈ (parseGuildDelete s d).1.messages, ¬ m.guildId = some g.id)
    ∧ (parseGuildDelete s d).1.messages.Sublist s.messages
    ∧ (parseGuildDelete s d).1.messages.length ≤ s.maxMessages
    ∧ dictGet d.id (parseGuildDelete s d).1.guilds = none
    ∧ (parseGuildDelete s d).2 = [Event.dispatch "guild_remove"] := by
  have hcond : ¬ (d.unavailable.getD false = true) := by
    rw [hu]
    simp
  have hmain : (parseGuildDelete s d).1
      = { s with
            messages := dequeTrunc s.maxMessages
              (s.messages.filter (fun m => ¬ m.guildId = some g.id))
            guilds := dictPop d.id s.guilds }
      ∧ (parseGuildDelete s d).2 = [Event.dispatch "guild_remove"] := by
    simp only [parseGuildDelete, hg]
    rw [if_neg hcond]
    exact ⟨rfl, rfl⟩
  have htrunc : dequeTrunc s.maxMessages
      (s.messages.filter (fun m => ¬ m.guildId = some g.id))
      = s.messages.filter (fun m => ¬ m.guildId = some g.id) := by
    unfold dequeTrunc
    have : (s.messages.filter (fun m => ¬ m.guildId = some g.id)).length
        ≤ s.maxMessages :=
      le_trans (List.length_filter_le _ s.messages) hlen
    rw [Nat.sub_eq_zero_of_le this, List.drop_zero]
  have hmsgs : (parseGuildDelete s d).1.messages
      = s.messages.filter (fun m => ¬ m.guildId = some g.id) := by
    rw [hmain.1]
    exact htrunc
  refine ⟨hmsgs, ?_, ?_, ?_, ?_, hmain.2⟩
  · intro m hm
    rw [hmsgs] at hm
    have := List.of_mem_filter hm
    simpa using this
  · rw [hmsgs]
    exact List.filter_sublist s.messages
  · rw [hmsgs]
    exact le_trans (List.length_filter_le _ s.messages) hlen
  · rw [hmain.1]
    exact dictGet_dictPop d.id s.guilds

/-- Witness for claim C5 at a concrete state. -/
theorem guild_delete_purges_only_guild_messages_witness :
    (dictGet c5Delete.id c5State.guilds = some c5Guild
      ∧ c5Delete.unavailable.getD false = false
      ∧ c5State.messages.length ≤ c5State.maxMessages)
    ∧ ((parseGuildDelete c5State c5Delete).1.messages
        = c5State.messages.filter (fun m => ¬ m.guildId = some c5Guild.id)
      ∧ (∀ m ∈ (parseGuildDelete c5State c5Delete).1.messages,
          ¬ m.guildId = some c5Guild.id)
      ∧ (parseGuildDelete c5State c5Delete).1.messages.Sublist
          c5State.messages
      ∧ (parseGuildDelete c5State c5Delete).1.messages.length
          ≤ c5State.maxMessages
      ∧ dictGet c5Delete.id (parseGuildDelete c5State c5Delete).1.guilds
          = none
      ∧ (parseGuildDelete c5State c5Delete).2
          = [Event.dispatch "guild_remove"]) :=
  ⟨⟨rfl, rfl, by decide⟩,
   guild_delete_purges_only_guild_messages c5State c5Delete c5Guild rfl rfl
     (by decide)⟩

/-- Claim C7: resolving the chunk class against a guild argument fulfills
(with the given result) exactly the first non-cancelled chunk listener
whose predicate accepts the argument and removes it, stops processing
after that first match (everything past the match survives untouched,
cancelled or not), prunes the cancelled listeners encountered on the way
without fulfilling them, and keeps all other encountered listeners in
their original relative order. -/
theorem process_listeners_chunk_first_match
    (pre post : List Listener) (w : Listener) (g : Guild) (r : Nat)
    (hw1 : w.cancelled = false) (hw2 : w.predGuildId = g.id)
    (hpre : ∀ l ∈ pre, l.cancelled = true ∨ l.predGuildId ≠ g.id) :
    processListeners ListenerType.chunk g r (pre ++ w :: post)
      = (pre.filter (fun l => !l.cancelled) ++ post,
         [Event.setResult w.future r]) := by
  rw [processListeners_eq_go]
  revert hpre
  induction pre with
  | nil =>
    intro _
    simp only [List.nil_append, List.filter_nil, processGo]
    rw [if_neg (show ¬ w.type ≠ ListenerType.chunk from by
      rw [listenerType_eq_chunk w.type]
      simp)]
    rw [if_neg (show ¬ w.cancelled = true from by rw [hw1]; simp)]
    rw [if_pos (show (g.id == w.predGuildId) = true from by
      rw [hw2, beq_self_eq_true])]
    simp only [if_true]
  | cons l pre ih =>
    intro hpre
    have hrest : ∀ x ∈ pre, x.cancelled = true ∨ x.predGuildId ≠ g.id :=
      fun x hx => hpre x (List.mem_cons_of_mem l hx)
    simp only [List.cons_append, processGo]
    rw [if_neg (show ¬ l.type ≠ ListenerType.chunk from by
      rw [listenerType_eq_chunk l.type]
      simp)]
    by_cases hcan : l.cancelled = true
    · rw [if_pos hcan]
      rw [List.filter_cons]
      have hnc : (!l.cancelled) = false := by rw [hcan]; rfl
      rw [hnc]
      simp only [Bool.false_eq_true, if_false]
      exact ih hrest
    · rw [if_neg hcan]
      have hne : l.predGuildId ≠ g.id :=
        (hpre l (List.mem_cons_self l pre)).resolve_left hcan
      rw [if_neg (show ¬ (g.id == l.predGuildId) = true from by
        simp only [beq_iff_eq]
        exact fun h => hne h.symm)]
      simp only [List.append_eq]
      rw [ih hrest]
      rw [List.filter_cons]
      have hnc : (!l.cancelled) = true := by
        cases hlc : l.cancelled
        · rfl
        · exact absurd hlc hcan
      rw [hnc]
      simp only [if_true, List.cons_append]

/-- Witness for claim C7 at a concrete registry. -/
theorem process_listeners_chunk_first_match_witness :
    (c7W.cancelled = false ∧ c7W.predGuildId = c7Guild.id
      ∧ ∀ l ∈ c7Pre, l.cancelled = true ∨ l.predGuildId ≠ c7Guild.id)
    ∧ processListeners ListenerType.chunk c7Guild 42 (c7Pre ++ c7W :: c7Post)
        = (c7Pre.filter (fun l => !l.cancelled) ++ c7Post,
           [Event.setResult c7W.future 42]) :=
  ⟨⟨rfl, rfl, by decide⟩,
   process_listeners_chunk_first_match c7Pre c7Post c7W c7Guild 42 rfl rfl
     (by decide)⟩

/-- Claim C2 (counterexample): with a readiness handshake in progress and a
large guild, the second guild-create (`unavailable = false`, same id) does
merge the cached guild in place (single entry, same tag, `unavailable`
cleared) — but it dispatches nothing and spawns nothing: the guild is
appended to the ReadyState's pending list instead, so no
`'guild_available'` is emitted by the second call, contradicting the claim
as stated. -/
theorem guild_recreate_ready_phase_no_available :
    c2Second.events = []
    ∧ c2Second.tasks = []
    ∧ keyCount 1 c2Second.state.guilds = 1
    ∧ dictGet 1 c2Second.state.guilds
        = some { id := 1, unavailable := false, large := true,
                 memberCount := 2500, channels := [], tag := 0 }
    ∧ c2Second.state.readyState
        = some { launchSet := false
                 guilds := [{ id := 1, unavailable := false, large := true,
                              memberCount := 2500, channels := [],
                              tag := 0 }] } :=
  ⟨rfl, rfl, rfl, rfl, rfl⟩

/-- With `unavailable` anything but `False`, `_get_create_guild` constructs
and inserts a fresh guild. -/
theorem getCreateGuild_new (s : ConnectionState) (d : GuildData)
    (h : d.unavailable ≠ some false) :
    getCreateGuild s d = addGuildFromData s d := by
  unfold getCreateGuild
  rw [if_neg h]

/-- With `unavailable == False` and the id cached, `_get_create_guild`
merges the record into the cached guild in place. -/
theorem getCreateGuild_avail (s : ConnectionState) (d : GuildData)
    (g : Guild) (h2 : d.unavailable = some false)
    (hg : dictGet d.id s.guilds = some g) :
    getCreateGuild s d
      = (mergeGuild { g with unavailable := false } d,
         { s with
            guilds := dictInsert d.id
              (mergeGuild { g with unavailable := false } d) s.guilds }) := by
  unfold getCreateGuild
  rw [if_pos h2, hg]

/-- A guild-create with the `unavailable` field absent always constructs
and inserts; the handler's state is the insertion state whatever the
dispatch path. -/
theorem parseGuildCreate_state_absent (s : ConnectionState) (d : GuildData)
    (h : d.unavailable = none) :
    (parseGuildCreate s d).state = (addGuildFromData s d).2 := by
  have hnt : d.unavailable ≠ some true := by rw [h]; simp
  have hnf : d.unavailable ≠ some false := by rw [h]; simp
  simp only [parseGuildCreate, getCreateGuild_new s d hnf]
  rw [if_neg hnt]
  by_cases hL : (addGuildFromData s d).1.large = true
  · rw [if_pos hL, if_neg hnf]
  · rw [if_neg hL, if_neg hnf]

/-- Re-availability of a cached non-large guild: merge in place and
dispatch `'guild_available'` synchronously. -/
theorem parseGuildCreate_avail_small (s : ConnectionState) (d : GuildData)
    (g : Guild) (h2 : d.unavailable = some false)
    (hg : dictGet d.id s.guilds = some g) (hL : d.large = false) :
    parseGuildCreate s d
      = { state :=
            { s with
                guilds := dictInsert d.id
                  (mergeGuild { g with unavailable := false } d) s.guilds }
          events := [Event.dispatch "guild_available"]
          tasks := [] } := by
  have hnt : d.unavailable ≠ some true := by rw [h2]; simp
  simp only [parseGuildCreate, getCreateGuild_avail s d g h2 hg]
  rw [if_neg hnt]
  have hgl : (mergeGuild { g with unavailable := false } d).large = false := by
    rw [mergeGuild]
    exact hL
  rw [if_neg (by rw [hgl]; simp), if_pos h2]

/-- Re-availability of a cached large guild with no handshake in progress:
merge in place and spawn the chunk-and-dispatch task. -/
theorem parseGuildCreate_avail_large (s : ConnectionState) (d : GuildData)
    (g : Guild) (h2 : d.unavailable = some false)
    (hg : dictGet d.id s.guilds = some g) (hL : d.large = true)
    (hrs : s.readyState = none) :
    parseGuildCreate s d
      = { state :=
            { s with
                guilds := dictInsert d.id
                  (mergeGuild { g with unavailable := false } d) s.guilds }
          events := []
          tasks := [{ guild := mergeGuild { g with unavailable := false } d,
                      unavailable := d.unavailable }] } := by
  have hnt : d.unavailable ≠ some true := by rw [h2]; simp
  simp only [parseGuildCreate, getCreateGuild_avail s d g h2 hg]
  rw [if_neg hnt]
  have hgl : (mergeGuild { g with unavailable := false } d).large = true := by
    rw [mergeGuild]
    exact hL
  rw [if_pos hgl, if_pos h2, hrs]

/-- Claim C2 (amended): for two guild-create events with the same id, the
first with `unavailable` absent and the second with `unavailable = false`,
the cache afterwards holds exactly one entry for that id, and the second
event merged the record into the very guild object cached by the first
(same construction tag, `unavailable` cleared).  `'guild_available'` is
dispatched by the second call — synchronously for a non-large guild, via
the spawned chunk-and-dispatch task for a large one — provided no
readiness handshake is in progress for a large guild (an active ReadyState
instead absorbs the guild into the pending list and the second call emits
nothing; see the counterexample). -/
theorem guild_recreate_single_entry_merged_available
    (s0 : ConnectionState) (d1 d2 : GuildData)
    (hid : d2.id = d1.id)
    (h1 : d1.unavailable = none)
    (h2 : d2.unavailable = some false)
    (hc : keyCount d1.id s0.guilds ≤ 1)
    (hready : d2.large = false
      ∨ (parseGuildCreate s0 d1).state.readyState = none) :
    keyCount d1.id
        (parseGuildCreate (parseGuildCreate s0 d1).state d2).state.guilds = 1
    ∧ dictGet d1.id (parseGuildCreate s0 d1).state.guilds
        = some (mkGuild d1 s0.fresh)
    ∧ dictGet d1.id
        (parseGuildCreate (parseGuildCreate s0 d1).state d2).state.guilds
        = some (mergeGuild { mkGuild d1 s0.fresh with unavailable := false } d2)
    ∧ (mergeGuild { mkGuild d1 s0.fresh with unavailable := false } d2).tag
        = (mkGuild d1 s0.fresh).tag
    ∧ (mergeGuild { mkGuild d1 s0.fresh with unavailable := false } d2).unavailable
        = false
    ∧ ((parseGuildCreate (parseGuildCreate s0 d1).state d2).events
        ++ (parseGuildCreate (parseGuildCreate s0 d1).state d2).tasks.flatMap
            chunkTaskEvents).countP (fun e => isGuildAvailableDispatch e)
        = 1 := by
  have hstate1 := parseGuildCreate_state_absent s0 d1 h1
  have hguilds1 : (parseGuildCreate s0 d1).state.guilds
      = dictInsert d1.id (mkGuild d1 s0.fresh) s0.guilds := by
    rw [hstate1]
    rfl
  have hget1 : dictGet d1.id (parseGuildCreate s0 d1).state.guilds
      = some (mkGuild d1 s0.fresh) := by
    rw [hguilds1]
    exact dictGet_dictInsert d1.id (mkGuild d1 s0.fresh) s0.guilds
  have hget2 : dictGet d2.id (parseGuildCreate s0 d1).state.guilds
      = some (mkGuild d1 s0.fresh) := by
    rw [hid]
    exact hget1
  have hkc1 : keyCount d1.id (parseGuildCreate s0 d1).state.guilds ≤ 1 := by
    rw [hguilds1]
    have := keyCount_dictInsert d1.id (mkGuild d1 s0.fresh) s0.guilds hc
    omega
  have hmerge_unavail :
      (mergeGuild { mkGuild d1 s0.fresh with unavailable := false } d2).unavailable
        = false := by
    rw [mergeGuild, h2]
    rfl
  by_cases hL : d2.large = true
  · have hrs : (parseGuildCreate s0 d1).state.readyState = none := by
      rcases hready with h | h
      · rw [hL] at h
        cases h
      · exact h
    have hr2 := parseGuildCreate_avail_large (parseGuildCreate s0 d1).state d2
      (mkGuild d1 s0.fresh) h2 hget2 hL hrs
    have hsg : (parseGuildCreate (parseGuildCreate s0 d1).state d2).state.guilds
        = dictInsert d2.id
            (mergeGuild { mkGuild d1 s0.fresh with unavailable := false } d2)
            (parseGuildCreate s0 d1).state.guilds := by
      rw [hr2]
    have hev : (parseGuildCreate (parseGuildCreate s0 d1).state d2).events
        = [] := by
      rw [hr2]
    have htk : (parseGuildCreate (parseGuildCreate s0 d1).state d2).tasks
        = [{ guild :=
              mergeGuild { mkGuild d1 s0.fresh with unavailable := false } d2,
             unavailable := d2.unavailable }] := by
      rw [hr2]
    refine ⟨?_, hget1, ?_, rfl, hmerge_unavail, ?_⟩
    · rw [hsg, hid]
      exact keyCount_dictInsert d1.id _ _ hkc1
    · rw [hsg, hid]
      exact dictGet_dictInsert d1.id _ _
    · rw [hev, htk, h2]
      simp [chunkTaskEvents, isGuildAvailableDispatch]
  · have hLf : d2.large = false := by
      revert hL
      cases d2.large
      · intro _; rfl
      · intro h; exact absurd rfl h
    have hr2 := parseGuildCreate_avail_small (parseGuildCreate s0 d1).state d2
      (mkGuild d1 s0.fresh) h2 hget2 hLf
    have hsg : (parseGuildCreate (parseGuildCreate s0 d1).state d2).state.guilds
        = dictInsert d2.id
            (mergeGuild { mkGuild d1 s0.fresh with unavailable := false } d2)
            (parseGuildCreate s0 d1).state.guilds := by
      rw [hr2]
    have hev : (parseGuildCreate (parseGuildCreate s0 d1).state d2).events
        = [Event.dispatch "guild_available"] := by
      rw [hr2]
    have htk : (parseGuildCreate (parseGuildCreate s0 d1).state d2).tasks
        = [] := by
      rw [hr2]
    refine ⟨?_, hget1, ?_, rfl, hmerge_unavail, ?_⟩
    · rw [hsg, hid]
      exact keyCount_dictInsert d1.id _ _ hkc1
    · rw [hsg, hid]
      exact dictGet_dictInsert d1.id _ _
    · rw [hev, htk]
      simp [isGuildAvailableDispatch]

/-- Witness for the amended claim C2 at a concrete run (large guild, no
active ReadyState: the task path dispatches `'guild_available'`). -/
theorem guild_recreate_single_entry_merged_available_witness :
    (c2Data2.id = c2Data1.id ∧ c2Data1.unavailable = none
      ∧ c2Data2.unavailable = some false
      ∧ keyCount c2Data1.id c2PlainStart.guilds ≤ 1
      ∧ (c2Data2.large = false
          ∨ (parseGuildCreate c2PlainStart c2Data1).state.readyState = none))
    ∧ (keyCount c2Data1.id
        (parseGuildCreate (parseGuildCreate c2PlainStart c2Data1).state
          c2Data2).state.guilds = 1
      ∧ dictGet c2Data1.id (parseGuildCreate c2PlainStart c2Data1).state.guilds
          = some (mkGuild c2Data1 c2PlainStart.fresh)
      ∧ dictGet c2Data1.id
          (parseGuildCreate (parseGuildCreate c2PlainStart c2Data1).state
            c2Data2).state.guilds
          = some (mergeGuild
              { mkGuild c2Data1 c2PlainStart.fresh with unavailable := false }
              c2Data2)
      ∧ (mergeGuild
          { mkGuild c2Data1 c2PlainStart.fresh with unavailable := false }
          c2Data2).tag = (mkGuild c2Data1 c2PlainStart.fresh).tag
      ∧ (mergeGuild
          { mkGuild c2Data1 c2PlainStart.fresh with unavailable := false }
          c2Data2).unavailable = false
      ∧ ((parseGuildCreate (parseGuildCreate c2PlainStart c2Data1).state
            c2Data2).events
          ++ (parseGuildCreate (parseGuildCreate c2PlainStart c2Data1).state
              c2Data2).tasks.flatMap chunkTaskEvents).countP
            (fun e => isGuildAvailableDispatch e) = 1) :=
  ⟨⟨rfl, rfl, rfl, by decide, Or.inr rfl⟩,
   guild_recreate_single_entry_merged_available c2PlainStart c2Data1 c2Data2
     rfl rfl rfl (by decide) (Or.inr rfl)⟩

/-- Intent check for C8 on the reachable unicode path: a fresh add creates
one row with count 1 and a second add from another user raises it to 2
without a second row; removes bring it back to 1 and then delete the row
at zero — the counts the spec describes, witnessed end to end. -/
theorem reaction_counts_unicode_scenario :
    rxScenario
      = Except.ok ([{ emoji := "ok", count := 2, me := false }],
                   [{ emoji := "ok", count := 1, me := false }],
                   []) :=
  rfl

end DiscordState
